import Mathlib

/-!
Shallow embedding of the `sc16is752-async` driver (src/lib.rs, src/low_level.rs):
a dual-channel UART bridge driven over SPI. Machine integers (u8/u16/u32) are
embedded as `Nat` with explicit `% 2^w` at the points where the Rust code
truncates or wraps; fallible/panicking paths return `Option`.
-/

namespace Sc16is752Async

/-- Embedding of `low_level::Channel` (src/low_level.rs:115-120): a 2-bit
bitfield specifier with exactly two representable values, `A = 0b00` and
`B = 0b01`. -/
inductive Channel
  | A
  | B
deriving DecidableEq

/-- The 2-bit wire encoding of a `Channel` (the discriminants `A = 0b00`,
`B = 0b01`). -/
def Channel.bits : Channel → Nat
  | .A => 0
  | .B => 1

/-- Decoding 2 channel bits, as generated by the bitfield specifier for a
2-bit field with only the discriminants 0 and 1 inhabited: patterns `0b10`
and `0b11` are invalid bit patterns and fail. -/
def Channel.fromBits : Nat → Option Channel
  | 0 => some .A
  | 1 => some .B
  | _ => none

/-- Embedding of `low_level::ReadWrite` (src/low_level.rs:122-127): a 1-bit
specifier, `Write = 0`, `Read = 1`. -/
inductive ReadWrite
  | Write
  | Read
deriving DecidableEq

/-- The 1-bit wire encoding of `ReadWrite`. -/
def ReadWrite.bits : ReadWrite → Nat
  | .Write => 0
  | .Read => 1

/-- Decoding 1 direction bit (both values of a 1-bit field are inhabited, so
this succeeds on every 1-bit value). -/
def ReadWrite.fromBits : Nat → Option ReadWrite
  | 0 => some .Write
  | 1 => some .Read
  | _ => none

/-- Register address constants of src/low_level.rs:11-22 (all 4-bit). -/
def THR : Nat := 0x00

def IER : Nat := 0x01

def FCR : Nat := 0x02

def LCR : Nat := 0x03

def MCR : Nat := 0x04

def LSR : Nat := 0x05

def DLL : Nat := 0x00

def DLH : Nat := 0x01

def TXLVL : Nat := 0x08

def RXLVL : Nat := 0x09

def IIR : Nat := 0x02

def RHR : Nat := 0x00

/-- Embedding of the `Rab` bitfield construction
`Rab::new().with_rw(rw).with_register(reg).with_channel(ch).into_bytes()`
(src/low_level.rs:129-136). The `#[bitfield]` macro lays fields out starting
at the least significant bit, so the declared order
`unused: B1, channel: Channel, register: B4, rw: ReadWrite` puts the unused
bit at bit 0, the channel at bits 2:1, the register address at bits 6:3 and
the direction at bit 7. The `with_register` setter panics when the value
does not fit in 4 bits; the `% 16` confines this embedding to the in-bounds
domain, and every theorem about `Rab` carries the hypothesis `reg < 16`
(every register constant in the repository is below 16). -/
def Rab.intoBytes (ch : Channel) (reg : Nat) (rw : ReadWrite) : Nat :=
  (Channel.bits ch <<< 1) ||| ((reg % 16) <<< 3) ||| (ReadWrite.bits rw <<< 7)

/-- The generated `channel()` accessor of `Rab`: extracts bits 2:1 and decodes
them as a `Channel`, failing on the invalid bit patterns `0b10`/`0b11`. -/
def Rab.channel (b : Nat) : Option Channel :=
  Channel.fromBits ((b >>> 1) % 4)

/-- The generated `register()` accessor of `Rab`: bits 6:3. -/
def Rab.register (b : Nat) : Nat :=
  (b >>> 3) % 16

/-- The generated `rw()` accessor of `Rab`: bit 7. -/
def Rab.rw (b : Nat) : Option ReadWrite :=
  ReadWrite.fromBits ((b >>> 7) % 2)

/-- Embedding of `FifoControl::new()` (src/low_level.rs:183-192): the bitfield
starts as the zero byte. Field layout, least significant bit first:
rx_trigger bits 1:0, tx_trigger bits 3:2, reserved bit 4, reset_tx bit 5,
reset_rx bit 6, enable bit 7. -/
def FifoControl.new : Nat := 0

/-- Setter `FifoControl::with_enable` (enable occupies bit 7); exact for
bytes below 256, which is the whole u8 domain of the source. -/
def FifoControl.with_enable (b : Nat) (v : Bool) : Nat :=
  if v then b ||| 128 else b &&& 127

/-- Setter `FifoControl::with_reset_tx` (reset_tx occupies bit 5). -/
def FifoControl.with_reset_tx (b : Nat) (v : Bool) : Nat :=
  if v then b ||| 32 else b &&& 223

/-- Setter `FifoControl::with_reset_rx` (reset_rx occupies bit 6). -/
def FifoControl.with_reset_rx (b : Nat) (v : Bool) : Nat :=
  if v then b ||| 64 else b &&& 191

/-- Getter `FifoControl::enable` (bit 7). -/
def FifoControl.enable (b : Nat) : Bool := Nat.testBit b 7

/-- Getter `FifoControl::reset_tx` (bit 5). -/
def FifoControl.reset_tx (b : Nat) : Bool := Nat.testBit b 5

/-- Getter `FifoControl::reset_rx` (bit 6). -/
def FifoControl.reset_rx (b : Nat) : Bool := Nat.testBit b 6

/-- Getter `LineControl::divisor_latch_enable` of the typed Line Control view
(src/low_level.rs:194-201): it is the FIRST declared field, hence bit 0 of
the register byte. -/
def LineControl.divisor_latch_enable (b : Nat) : Bool := Nat.testBit b 0

/-- Getter `LineControl::break_control_bit` (second declared field, bit 1). -/
def LineControl.break_control_bit (b : Nat) : Bool := Nat.testBit b 1

/-- One transaction on the SPI bus, as issued by the driver: either
`spi.write(bytes)` or `spi.transfer_in_place(bytes)` (outgoing bytes
recorded; for `transfer_in_place` the chip overwrites the buffer with its
response, which this trace-level model takes from the environment). -/
inductive SpiTransaction
  | write (bytes : List Nat)
  | transferInPlace (bytes : List Nat)
deriving DecidableEq

/-- Embedding of `RegisterWrapper::write` (src/low_level.rs:29-45): the bus
transaction it issues, namely `spi.write(&[rab, value])` with `rab` built
with direction = write. -/
def RegisterWrapper.write (reg : Nat) (ch : Channel) (value : Nat) : SpiTransaction :=
  .write [Rab.intoBytes ch reg .Write, value]

/-- Embedding of `RegisterWrapper::read` (src/low_level.rs:47-61): the bus
transaction it issues, namely `spi.transfer_in_place(&mut [rab, 0x00])` with
`rab` built with direction = read. (The returned data byte is the second
response byte; in this trace-level model the environment supplies it at each
call site.) -/
def RegisterWrapper.read (reg : Nat) (ch : Channel) : SpiTransaction :=
  .transferInPlace [Rab.intoBytes ch reg .Read, 0x00]

/-- Embedding of `RegisterWrapper::write_fcr` (src/low_level.rs:71-77):
a register write of the FIFO Control byte to address `FCR`. -/
def RegisterWrapper.write_fcr (ch : Channel) (fcr : Nat) : SpiTransaction :=
  RegisterWrapper.write FCR ch fcr

/-- Modelled from the spec: `RegisterWrapper::write_many_thr` is called by
`Sc16is752::write` (src/lib.rs:123) but is absent from the repository
sources. Spec section 4.2 (`write_burst`) specifies it: the driver issues one
control byte (direction = write, register = the transmit holding register)
followed by the N given data bytes, as a single bus transaction. -/
def RegisterWrapper.write_many_thr (ch : Channel) (bytes : List Nat) : SpiTransaction :=
  .write (Rab.intoBytes ch THR .Write :: bytes)

/-- Embedding of `Sc16is752::write` (src/lib.rs:114-126), no-bus-error path.
`txlvlResp` is the data byte the chip returns for the TXLVL read (a u8).
Returns the `Ok` value together with the bus transactions issued, in order.
Mirrors the source exactly: the early return on an empty buffer, then
`space_left = read_txlvl(...)`, `len = buf.len().min(space_left)`,
`write_many_thr(channel, buf)` — note the source passes the WHOLE `buf` to
the burst write, not its first `len` bytes — and `Ok(len)`. -/
def Sc16is752.write (ch : Channel) (txlvlResp : Nat) (buf : List Nat) :
    Nat × List SpiTransaction :=
  if buf.isEmpty then (0, [])
  else
    (min buf.length txlvlResp,
      [RegisterWrapper.read TXLVL ch, RegisterWrapper.write_many_thr ch buf])

/-- The prescaler selection of `Sc16is752::init` (src/lib.rs:62-63):
1 when the byte read from MCR is 0, else 4. -/
def prescalerOf (mcr : Nat) : Nat := if mcr = 0 then 1 else 4

/-- The divisor computation of `Sc16is752::init` (src/lib.rs:66):
`((crystal_freq / prescaler) / (16 * baud_rate)) as u16` in u32 arithmetic.
The product `16 * baud_rate` wraps modulo 2^32 (release semantics), the
divisions are truncating, and the `as u16` cast keeps the low 16 bits. When
`16 * baud_rate` wraps to 0 the Rust program panics with a division by zero;
that case is fenced off in `Sc16is752.init` below and excluded by the
hypotheses of every theorem that uses this definition. -/
def initDivisor (baud_rate crystal_freq mcr : Nat) : Nat :=
  ((crystal_freq / prescalerOf mcr) / ((16 * baud_rate) % 4294967296)) % 65536

/-- Embedding of `Sc16is752::init` (src/lib.rs:36-80), no-bus-error path.
`lcrResp` and `mcrResp` are the data bytes the chip returns for the LCR and
MCR reads. The result is the ordered list of bus transactions issued;
`none` models the division-by-zero panic that occurs when `16 * baud_rate`
wraps to 0 in u32 arithmetic (the panic strikes at the divisor computation,
after the FCR write, LCR read/write and MCR read but before any divisor
byte is written, and `init` never returns). The transactions, in source
order: write FCR with enable/reset_tx/reset_rx set; read LCR; write LCR
with bit 7 (`lcr_val |= 0x80`) set; read MCR; write the divisor low byte to
DLL and its high byte to DLH (`to_be_bytes`); write the literal 0x03 to
LCR. -/
def Sc16is752.init (ch : Channel) (baud_rate crystal_freq lcrResp mcrResp : Nat) :
    Option (List SpiTransaction) :=
  if (16 * baud_rate) % 4294967296 = 0 then none
  else
    some
      [RegisterWrapper.write_fcr ch
          (FifoControl.with_reset_rx
            (FifoControl.with_reset_tx (FifoControl.with_enable FifoControl.new true) true)
            true),
        RegisterWrapper.read LCR ch,
        RegisterWrapper.write LCR ch (lcrResp ||| 0x80),
        RegisterWrapper.read MCR ch,
        RegisterWrapper.write DLL ch (initDivisor baud_rate crystal_freq mcrResp % 256),
        RegisterWrapper.write DLH ch (initDivisor baud_rate crystal_freq mcrResp / 256),
        RegisterWrapper.write LCR ch 0x03]

/-- The initialization transaction trace asserted by the spec (section 4.4
and claim C4), written from the spec's words for comparison with
`Sc16is752.init`: FIFO Control write with enable/reset-tx/reset-rx first,
Line Control read then write entering divisor-latch mode, Modem Control
read, the divisor's low then high byte (divisor = crystal_freq /
(prescaler * 16 * baud_rate), truncated, as a 16-bit value), and a final
Line Control write of the literal 0x03. -/
def initClaimedTrace (ch : Channel) (baud_rate crystal_freq lcrResp mcrResp : Nat) :
    List SpiTransaction :=
  [RegisterWrapper.write_fcr ch
      (FifoControl.with_reset_rx
        (FifoControl.with_reset_tx (FifoControl.with_enable FifoControl.new true) true)
        true),
    RegisterWrapper.read LCR ch,
    RegisterWrapper.write LCR ch (lcrResp ||| 0x80),
    RegisterWrapper.read MCR ch,
    RegisterWrapper.write DLL ch
      (crystal_freq / (prescalerOf mcrResp * (16 * baud_rate)) % 65536 % 256),
    RegisterWrapper.write DLH ch
      (crystal_freq / (prescalerOf mcrResp * (16 * baud_rate)) % 65536 / 256),
    RegisterWrapper.write LCR ch 0x03]

/-- Embedding of the driver error type (src/lib.rs:87-90): one variant
wrapping the SPI transport error. -/
inductive Error (SpiErr : Type)
  | Spi (e : SpiErr)

/-- Embedding of `impl Display for Error` (src/lib.rs:98-102):
`write!(f, "SC16IS752 Error: {}", self)` writes the prefix and then invokes
`Display` on `self` again, so the completed output of a call at recursion
depth `fuel` exists only if the recursive call at depth `fuel - 1`
completes. `none` means no completed output within `fuel` unfoldings. -/
def Error.fmtFuel {SpiErr : Type} (e : Error SpiErr) : Nat → Option String
  | 0 => none
  | fuel + 1 => (Error.fmtFuel e fuel).map (fun s => "SC16IS752 Error: " ++ s)

/-! Helper lemmas shared by the claim theorems. -/

/-- Setting bit 7 by or-ing with 0x80 makes bit 7 true. -/
theorem testBit_lor128_seven (a : Nat) : Nat.testBit (a ||| 128) 7 = true := by
  rw [Nat.testBit_lor]
  have h7 : Nat.testBit 128 7 = true := by decide
  rw [h7, Bool.or_true]

/-- Or-ing with 0x80 leaves every bit other than bit 7 unchanged. -/
theorem testBit_lor128_of_ne (a i : Nat) (h : i ≠ 7) :
    Nat.testBit (a ||| 128) i = Nat.testBit a i := by
  have h128 : (128 : Nat) = 2 ^ 7 := by norm_num
  simp [Nat.testBit_lor, h128, Nat.testBit_two_pow_of_ne (Ne.symm h)]

/-- When `16 * baud` does not overflow u32, the divisor computed by `init`
(two truncating divisions, then the u16 cast) equals the single truncating
division by `prescaler * 16 * baud`, reduced to 16 bits. -/
theorem initDivisor_eq (baud crystal mcr : Nat) (hw : 16 * baud < 4294967296) :
    initDivisor baud crystal mcr = crystal / (prescalerOf mcr * (16 * baud)) % 65536 := by
  unfold initDivisor
  rw [Nat.mod_eq_of_lt hw, Nat.div_div_eq_div_mul]

/-- In the non-panicking region, `init` emits exactly the trace the spec
asserts. -/
theorem init_eq_claimedTrace (ch : Channel) (baud crystal lcrResp mcrResp : Nat)
    (hb : 0 < baud) (hw : 16 * baud < 4294967296) :
    Sc16is752.init ch baud crystal lcrResp mcrResp =
      some (initClaimedTrace ch baud crystal lcrResp mcrResp) := by
  have h0 : (16 * baud) % 4294967296 ≠ 0 := by
    rw [Nat.mod_eq_of_lt hw]; omega
  simp [Sc16is752.init, initClaimedTrace, h0, initDivisor_eq baud crystal mcrResp hw]

/-! Claim theorems. -/

/-- Claim C1, evaluated at the failing input: with the TXLVL read reporting
5 free bytes and a 10-byte buffer, `Sc16is752::write` returns 5 but the THR
burst transaction carries all 10 data bytes — src/lib.rs:123 passes the
whole `buf` to `write_many_thr` instead of its first `len` bytes, so bytes
beyond the returned count are put on the bus, contradicting the spec's
partial-write contract. -/
theorem write_transmits_whole_buffer :
    Sc16is752.write Channel.A 5 [1, 2, 3, 4, 5, 6, 7, 8, 9, 10] =
      (5, [SpiTransaction.transferInPlace [0xC0, 0x00],
        SpiTransaction.write [0x00, 1, 2, 3, 4, 5, 6, 7, 8, 9, 10]]) := by
  decide

/-- Claim C2, counterexample: the claim asserts bit 7 of every control byte
is 0, but the codec output for (channel A, register TXLVL, direction read)
is 0xC0, whose bit 7 is 1 — the bitfield lays fields out from the least
significant bit, so the direction occupies bit 7, not bit 0. -/
theorem rab_bit7_not_zero :
    Rab.intoBytes Channel.A TXLVL ReadWrite.Read = 0xC0 ∧
    Nat.testBit (Rab.intoBytes Channel.A TXLVL ReadWrite.Read) 7 = true := by
  decide

/-- Claim C2, amended: for every channel, register address 0-15 and
direction, the codec produces the single byte (below 256) with bit 0 = 0,
bits 2:1 = channel, bits 6:3 = register address, and bit 7 = direction
(0 for write, 1 for read). -/
theorem rab_layout (ch : Channel) (rw : ReadWrite) :
    ∀ reg, reg < 16 →
      Rab.intoBytes ch reg rw < 256 ∧
      Rab.intoBytes ch reg rw % 2 = 0 ∧
      (Rab.intoBytes ch reg rw >>> 1) % 4 = Channel.bits ch ∧
      (Rab.intoBytes ch reg rw >>> 3) % 16 = reg ∧
      Rab.intoBytes ch reg rw >>> 7 = ReadWrite.bits rw := by
  cases ch <;> cases rw <;> decide

/-- Witness for `rab_layout` at channel A, register 8 (TXLVL), read. -/
theorem rab_layout_witness :
    8 < 16 ∧
      (Rab.intoBytes Channel.A 8 ReadWrite.Read < 256 ∧
        Rab.intoBytes Channel.A 8 ReadWrite.Read % 2 = 0 ∧
        (Rab.intoBytes Channel.A 8 ReadWrite.Read >>> 1) % 4 = Channel.bits Channel.A ∧
        (Rab.intoBytes Channel.A 8 ReadWrite.Read >>> 3) % 16 = 8 ∧
        Rab.intoBytes Channel.A 8 ReadWrite.Read >>> 7 = ReadWrite.bits ReadWrite.Read) :=
  ⟨by decide, rab_layout Channel.A ReadWrite.Read 8 (by decide)⟩

/-- Claim C3: the control-byte codec satisfies the three literal fixtures of
`tests::test_rab_construction` (src/low_level.rs:219-241): read TXLVL on
channel A gives 0xC0, write IER on channel A gives 0x08, read TXLVL on
channel B gives 0xC2. -/
theorem rab_fixtures :
    Rab.intoBytes Channel.A TXLVL ReadWrite.Read = 0xC0 ∧
    Rab.intoBytes Channel.A IER ReadWrite.Write = 0x08 ∧
    Rab.intoBytes Channel.B TXLVL ReadWrite.Read = 0xC2 := by
  decide

/-- Claim C4, counterexample: at baud_rate = 2^28 (> 0) the u32 product
`16 * baud_rate` wraps to 0, so the divisor computation divides by zero and
`init` panics instead of emitting the claimed 7-transaction trace. -/
theorem init_panics_on_wide_baud :
    Sc16is752.init Channel.A 268435456 1843200 0 0 = none := by
  decide

/-- Claim C4, amended: for every baud rate > 0 with 16 * baud_rate < 2^32
(so the u32 product neither wraps nor causes a division-by-zero panic) and
every crystal frequency, when no bus error occurs `init` emits exactly the
ordered trace of `initClaimedTrace`: the FIFO Control write (whose byte has
enable, reset-tx and reset-rx set) strictly first, the Line Control
read/write pair entering divisor-latch mode (the written byte has the
latch bit, bit 7, set), the Modem Control read, the divisor low byte to DLL
then high byte to DLH, and the final Line Control write of the literal
0x03, whose latch bit is clear. -/
theorem init_trace (ch : Channel) (baud crystal lcrResp mcrResp : Nat)
    (hb : 0 < baud) (hw : 16 * baud < 4294967296) :
    Sc16is752.init ch baud crystal lcrResp mcrResp =
      some (initClaimedTrace ch baud crystal lcrResp mcrResp) ∧
    FifoControl.with_reset_rx
        (FifoControl.with_reset_tx (FifoControl.with_enable FifoControl.new true) true)
        true = 0xE0 ∧
    FifoControl.enable 0xE0 = true ∧
    FifoControl.reset_tx 0xE0 = true ∧
    FifoControl.reset_rx 0xE0 = true ∧
    Nat.testBit (lcrResp ||| 0x80) 7 = true ∧
    Nat.testBit 0x03 7 = false :=
  ⟨init_eq_claimedTrace ch baud crystal lcrResp mcrResp hb hw, by decide, by decide,
    by decide, by decide, testBit_lor128_seven lcrResp, by decide⟩

/-- Witness for `init_trace` at channel A, 9600 baud, 1.8432 MHz crystal,
LCR and MCR reading back 0. -/
theorem init_trace_witness :
    0 < 9600 ∧ 16 * 9600 < 4294967296 ∧
      (Sc16is752.init Channel.A 9600 1843200 0 0 =
          some (initClaimedTrace Channel.A 9600 1843200 0 0) ∧
        FifoControl.with_reset_rx
            (FifoControl.with_reset_tx (FifoControl.with_enable FifoControl.new true) true)
            true = 0xE0 ∧
        FifoControl.enable 0xE0 = true ∧
        FifoControl.reset_tx 0xE0 = true ∧
        FifoControl.reset_rx 0xE0 = true ∧
        Nat.testBit ((0 : Nat) ||| 0x80) 7 = true ∧
        Nat.testBit 0x03 7 = false) :=
  ⟨by decide, by decide, init_trace Channel.A 9600 1843200 0 0 (by decide) (by decide)⟩

/-- Claim C5, counterexample: at crystal_freq = 2^24, baud_rate = 1, MCR
reading back 0 (prescaler 1), the exact quotient crystal / (1 * 16 * 1) is
1048576, but the programmed 16-bit divisor is its low 16 bits, 0 — the
`as u16` cast truncates, so the programmed divisor does not always equal
the full quotient. -/
theorem divisor_truncated_to_16_bits :
    initDivisor 1 16777216 0 = 0 ∧
    16777216 / (prescalerOf 0 * (16 * 1)) = 1048576 := by
  decide

/-- Claim C5, amended: the prescaler is 1 when the MCR byte reads back 0 and
4 otherwise; for every baud_rate > 0 with 16 * baud_rate < 2^32, the
programmed 16-bit divisor equals (crystal_freq / (prescaler * 16 *
baud_rate)) mod 2^16, with truncating (floor) division; in particular
crystal_freq = 1843200 and baud_rate = 9600 give divisor 12 with
prescaler 1 and divisor 3 with prescaler 4. -/
theorem divisor_formula (baud crystal mcr : Nat) (_hb : 0 < baud)
    (hw : 16 * baud < 4294967296) :
    prescalerOf mcr = (if mcr = 0 then 1 else 4) ∧
    initDivisor baud crystal mcr = crystal / (prescalerOf mcr * (16 * baud)) % 65536 ∧
    initDivisor 9600 1843200 0 = 12 ∧
    initDivisor 9600 1843200 1 = 3 :=
  ⟨rfl, initDivisor_eq baud crystal mcr hw, by decide, by decide⟩

/-- Witness for `divisor_formula` at 9600 baud, 1.8432 MHz crystal, MCR 0. -/
theorem divisor_formula_witness :
    0 < 9600 ∧ 16 * 9600 < 4294967296 ∧
      (prescalerOf 0 = (if (0 : Nat) = 0 then 1 else 4) ∧
        initDivisor 9600 1843200 0 = 1843200 / (prescalerOf 0 * (16 * 9600)) % 65536 ∧
        initDivisor 9600 1843200 0 = 12 ∧
        initDivisor 9600 1843200 1 = 3) :=
  ⟨by decide, by decide, divisor_formula 9600 1843200 0 (by decide) (by decide)⟩

/-- Claim C6, counterexample: with the LCR reading back 0, the value `init`
writes back (trace position 2) is 128 = 0x80, which differs from the read
value 0 even though its bit 0 — the divisor-latch-enable field of the typed
`LineControl` view — is still false: the write does NOT differ from the
read value only in the typed view's bit-0 latch field. -/
theorem lcr_write_ignores_typed_view :
    (Sc16is752.init Channel.A 9600 1843200 0 0).bind (fun tr => tr[2]?) =
      some (RegisterWrapper.write LCR Channel.A 128) ∧
    LineControl.divisor_latch_enable 128 = false ∧
    (128 : Nat) ≠ 0 := by
  decide

/-- Claim C6, amended: the Line Control value `init` writes back differs
from the value just read only in having BIT 7 set (`lcr_val |= 0x80`,
the chip's divisor-latch bit, which is not the bit-0
`divisor_latch_enable` field declared by the typed `LineControl` view);
every other bit, including both typed-view fields (bits 0 and 1), is
preserved. -/
theorem lcr_write_sets_bit_seven (ch : Channel) (baud crystal lcrResp mcrResp : Nat)
    (hb : 0 < baud) (hw : 16 * baud < 4294967296) :
    (Sc16is752.init ch baud crystal lcrResp mcrResp).bind (fun tr => tr[2]?) =
      some (RegisterWrapper.write LCR ch (lcrResp ||| 0x80)) ∧
    Nat.testBit (lcrResp ||| 0x80) 7 = true ∧
    LineControl.divisor_latch_enable (lcrResp ||| 0x80) =
      LineControl.divisor_latch_enable lcrResp ∧
    LineControl.break_control_bit (lcrResp ||| 0x80) =
      LineControl.break_control_bit lcrResp ∧
    (∀ i : Nat, i ≠ 7 → Nat.testBit (lcrResp ||| 0x80) i = Nat.testBit lcrResp i) := by
  have h0 : (16 * baud) % 4294967296 ≠ 0 := by
    rw [Nat.mod_eq_of_lt hw]; omega
  refine ⟨?_, testBit_lor128_seven lcrResp, ?_, ?_, ?_⟩
  · simp [Sc16is752.init, h0]
  · exact testBit_lor128_of_ne lcrResp 0 (by decide)
  · exact testBit_lor128_of_ne lcrResp 1 (by decide)
  · intro i hi
    exact testBit_lor128_of_ne lcrResp i hi

/-- Witness for `lcr_write_sets_bit_seven` at channel A, 9600 baud,
1.8432 MHz crystal, LCR reading back 5, MCR 0 (the binder-free conjuncts
of the instantiated conclusion). -/
theorem lcr_write_sets_bit_seven_witness :
    0 < 9600 ∧ 16 * 9600 < 4294967296 ∧
      (Sc16is752.init Channel.A 9600 1843200 5 0).bind (fun tr => tr[2]?) =
        some (RegisterWrapper.write LCR Channel.A ((5 : Nat) ||| 0x80)) ∧
      Nat.testBit ((5 : Nat) ||| 0x80) 7 = true ∧
      LineControl.divisor_latch_enable ((5 : Nat) ||| 0x80) =
        LineControl.divisor_latch_enable 5 :=
  ⟨by decide, by decide,
    (lcr_write_sets_bit_seven Channel.A 9600 1843200 5 0 (by decide) (by decide)).1,
    (lcr_write_sets_bit_seven Channel.A 9600 1843200 5 0 (by decide) (by decide)).2.1,
    (lcr_write_sets_bit_seven Channel.A 9600 1843200 5 0 (by decide) (by decide)).2.2.1⟩

/-- Claim C7: for every channel, register address 0-15 and direction, the
generated accessors decode the encoded control byte back to exactly the
original channel, register address and direction. -/
theorem rab_roundtrip (ch : Channel) (rw : ReadWrite) :
    ∀ reg, reg < 16 →
      Rab.channel (Rab.intoBytes ch reg rw) = some ch ∧
      Rab.register (Rab.intoBytes ch reg rw) = reg ∧
      Rab.rw (Rab.intoBytes ch reg rw) = some rw := by
  cases ch <;> cases rw <;> decide

/-- Witness for `rab_roundtrip` at channel B, register 8 (TXLVL), read. -/
theorem rab_roundtrip_witness :
    8 < 16 ∧
      (Rab.channel (Rab.intoBytes Channel.B 8 ReadWrite.Read) = some Channel.B ∧
        Rab.register (Rab.intoBytes Channel.B 8 ReadWrite.Read) = 8 ∧
        Rab.rw (Rab.intoBytes Channel.B 8 ReadWrite.Read) = some ReadWrite.Read) :=
  ⟨by decide, rab_roundtrip Channel.B ReadWrite.Read 8 (by decide)⟩

/-- Claim C8: for every channel and every TXLVL environment response,
`write` on the empty buffer returns 0 and issues zero bus transactions. -/
theorem write_empty_returns_zero (ch : Channel) (txlvlResp : Nat) :
    Sc16is752.write ch txlvlResp [] = (0, []) := rfl

/-- Claim C9: for every error value and every recursion-depth bound, the
embedded `Display::fmt` produces no completed output — the implementation
formats `self` with itself, so the recursion never bottoms out. -/
theorem error_display_never_terminates (SpiErr : Type) (e : Error SpiErr) (fuel : Nat) :
    Error.fmtFuel e fuel = none := by
  induction fuel with
  | zero => rfl
  | succ n ih => simp [Error.fmtFuel, ih]

set_option maxRecDepth 4000 in
/-- Claim C10: decoding is partial at the channel field — for every raw byte
whose 2-bit channel field (bits 2:1) holds 0b10 or 0b11, the channel
accessor fails, so the encode-then-decode round trip cannot be extended
from valid triples to all 256 bytes. -/
theorem rab_channel_decode_fails :
    ∀ b, b < 256 → 2 ≤ (b >>> 1) % 4 → Rab.channel b = none := by
  decide

/-- Witness for `rab_channel_decode_fails` at the byte 0x04, whose channel
bits are 0b10. -/
theorem rab_channel_decode_fails_witness :
    (4 < 256 ∧ 2 ≤ ((4 : Nat) >>> 1) % 4) ∧ Rab.channel 4 = none :=
  ⟨by decide, rab_channel_decode_fails 4 (by decide) (by decide)⟩

end Sc16is752Async
